import Mathlib

/-!
Shallow embedding of `src/driver/xilinx_dma_bridge_main.c` (Xilinx AXI DMA
bridge driver): the probe (acquisition) and remove (teardown) entrypoints.

The C code is straight-line with goto-based unwinding.  We embed it as pure
Lean functions over an environment that fixes the outcomes of the external
calls (`kmalloc`, `axidma_dma_init`, `axidma_chrdev_init`), and we record
every externally visible call in an event trace, in program order.  The
drvdata slot of the device is threaded explicitly as an `Option AxidmaDevice`.
-/

namespace XilinxDmaBridge

/-- Linux errno values used by the driver (returned negated, as in the C). -/
def ENOMEM : Int := 12

/-- The errno returned by both goto unwind paths of the probe. -/
def ENOSYS : Int := 38

/-- The `struct axidma_device` fields touched by this file.  Fields that the
C code leaves uninitialized after `kmalloc` are modelled as `Option`,
`none` standing for uninitialized memory. -/
structure AxidmaDevice where
  pdev : Nat
  chrdev_name : Option String
  minor_num : Option Int
  num_devices : Option Int
deriving DecidableEq, Repr

/-- Externally visible calls made by probe/remove, in program order.
Release-side events carry the pointer argument they were invoked with
(`none` models a NULL `axidma_dev`). -/
inductive Event where
  | axidma_dma_init (pdev : Nat) (rc : Int)
  | assignConfig (name : String) (minor : Int) (ndev : Int)
  | axidma_chrdev_init (rc : Int)
  | axidma_chrdev_exit (arg : Option AxidmaDevice)
  | axidma_dma_exit (arg : Option AxidmaDevice)
  | kfree (arg : Option AxidmaDevice)
  | dev_set_drvdata (arg : AxidmaDevice)
deriving DecidableEq, Repr

/-- The module-parameter configuration consumed by the probe:
`CHARACTER_DEVICE_NAME`, `MINOR_NUMBER` (this file) and `NUM_DEVICES`
(from axidma.h). -/
structure Config where
  CHARACTER_DEVICE_NAME : String
  MINOR_NUMBER : Int
  NUM_DEVICES : Int
deriving DecidableEq, Repr

/-- Outcomes of the external calls the probe makes, fixed up front:
whether `kmalloc` returns NULL, and the return codes of
`axidma_dma_init` and `axidma_chrdev_init`. -/
structure Env where
  kmalloc_fails : Bool
  dma_init_rc : Int
  chrdev_init_rc : Int
deriving DecidableEq, Repr

/-- Result of one entrypoint call: the C return value, the trace of external
calls it made, and the contents of the drvdata slot of the device afterwards. -/
structure Result where
  rc : Int
  trace : List Event
  drvdata : Option AxidmaDevice
deriving DecidableEq, Repr

/-- Embedding of `xilinx_dma_bridge_probe` (lines 61-100 of the source).
`drv` is the drvdata slot before the call; the probe only writes it, via
`dev_set_drvdata`, on the full-success path. -/
def xilinx_dma_bridge_probe (env : Env) (cfg : Config) (pdev : Nat)
    (drv : Option AxidmaDevice) : Result :=
  -- axidma_dev = kmalloc(sizeof(*axidma_dev), GFP_KERNEL);
  if env.kmalloc_fails then
    -- if (axidma_dev == NULL) ... return -ENOMEM;
    { rc := -ENOMEM, trace := [], drvdata := drv }
  else
    -- axidma_dev->pdev = pdev;  (other fields still uninitialized)
    let axidma_dev : AxidmaDevice :=
      { pdev := pdev, chrdev_name := none, minor_num := none,
        num_devices := none }
    -- rc = axidma_dma_init(pdev, axidma_dev);
    let rc := env.dma_init_rc
    if rc < 0 then
      -- goto free_axidma_dev: kfree(axidma_dev); return -ENOSYS;
      { rc := -ENOSYS,
        trace := [Event.axidma_dma_init pdev rc,
                  Event.kfree (some axidma_dev)],
        drvdata := drv }
    else
      -- axidma_dev->chrdev_name = CHARACTER_DEVICE_NAME; etc.
      let axidma_dev2 : AxidmaDevice :=
        { axidma_dev with
          chrdev_name := some cfg.CHARACTER_DEVICE_NAME,
          minor_num := some cfg.MINOR_NUMBER,
          num_devices := some cfg.NUM_DEVICES }
      -- rc = axidma_chrdev_init(axidma_dev);
      let rc2 := env.chrdev_init_rc
      if rc2 < 0 then
        -- goto destroy_dma_dev: axidma_dma_exit; kfree; return -ENOSYS;
        { rc := -ENOSYS,
          trace := [Event.axidma_dma_init pdev rc,
                    Event.assignConfig cfg.CHARACTER_DEVICE_NAME
                      cfg.MINOR_NUMBER cfg.NUM_DEVICES,
                    Event.axidma_chrdev_init rc2,
                    Event.axidma_dma_exit (some axidma_dev2),
                    Event.kfree (some axidma_dev2)],
          drvdata := drv }
      else
        -- dev_set_drvdata(&pdev->dev, axidma_dev); return 0;
        { rc := 0,
          trace := [Event.axidma_dma_init pdev rc,
                    Event.assignConfig cfg.CHARACTER_DEVICE_NAME
                      cfg.MINOR_NUMBER cfg.NUM_DEVICES,
                    Event.axidma_chrdev_init rc2,
                    Event.dev_set_drvdata axidma_dev2],
          drvdata := some axidma_dev2 }

/-- Embedding of `xilinx_dma_bridge_remove` (lines 108-124 of the source).
`drv` is the drvdata slot before the call; `axidma_dev = dev_get_drvdata`
reads it, and the function never writes the slot back. -/
def xilinx_dma_bridge_remove (drv : Option AxidmaDevice) : Result :=
  -- axidma_dev = dev_get_drvdata(&pdev->dev);
  let axidma_dev := drv
  -- axidma_chrdev_exit(axidma_dev); axidma_dma_exit(axidma_dev);
  -- kfree(axidma_dev); return 0;
  { rc := 0,
    trace := [Event.axidma_chrdev_exit axidma_dev,
              Event.axidma_dma_exit axidma_dev,
              Event.kfree axidma_dev],
    drvdata := drv }

/-- Is an event a release-side call (a subsystem exit or a kfree)? -/
def isRelease : Event → Bool
  | Event.axidma_chrdev_exit _ => true
  | Event.axidma_dma_exit _ => true
  | Event.kfree _ => true
  | _ => false

/-- Is an event a subsystem acquire call? -/
def isAcquire : Event → Bool
  | Event.axidma_dma_init _ _ => true
  | Event.axidma_chrdev_init _ => true
  | _ => false

/-- The release-side subtrace, in order. -/
def releases (t : List Event) : List Event := t.filter isRelease

/-- The acquire-side subtrace, in order. -/
def acquires (t : List Event) : List Event := t.filter isAcquire

/-- Number of `dev_set_drvdata` calls in a trace. -/
def countSetDrvdata (t : List Event) : Nat :=
  t.countP fun e => match e with
    | Event.dev_set_drvdata _ => true
    | _ => false

/-- Number of `assignConfig` (handle config-field store) events in a trace. -/
def countAssignConfig (t : List Event) : Nat :=
  t.countP fun e => match e with
    | Event.assignConfig _ _ _ => true
    | _ => false

/-- The handle as it stands right after `kmalloc` and the `pdev` store:
config fields still uninitialized. -/
def freshDevice (pdev : Nat) : AxidmaDevice :=
  { pdev := pdev, chrdev_name := none, minor_num := none, num_devices := none }

/-- The handle after the configuration field assignments of lines 81-83. -/
def configuredDevice (cfg : Config) (pdev : Nat) : AxidmaDevice :=
  { pdev := pdev, chrdev_name := some cfg.CHARACTER_DEVICE_NAME,
    minor_num := some cfg.MINOR_NUMBER, num_devices := some cfg.NUM_DEVICES }

/-- The default module-parameter values of this file (`NUM_DEVICES` comes
from axidma.h; any value serves for concrete instantiations). -/
def defaultConfig : Config :=
  { CHARACTER_DEVICE_NAME := "xilinx_dma_bridge", MINOR_NUMBER := 0,
    NUM_DEVICES := 1 }

/-- C1: after a failing probe, the release calls issued are exactly the
reverse of the acquisition steps that had succeeded: none on allocation
failure; only the handle kfree on a DMA-subsystem failure; axidma_dma_exit
once and then the handle kfree on a character-device-subsystem failure.
No release is issued for a step that did not succeed. -/
theorem probe_rollback_exact (env : Env) (cfg : Config) (pdev : Nat)
    (drv : Option AxidmaDevice)
    (h : (xilinx_dma_bridge_probe env cfg pdev drv).rc ≠ 0) :
    (env.kmalloc_fails = true →
      releases (xilinx_dma_bridge_probe env cfg pdev drv).trace = []) ∧
    (env.kmalloc_fails = false → env.dma_init_rc < 0 →
      releases (xilinx_dma_bridge_probe env cfg pdev drv).trace =
        [Event.kfree (some (freshDevice pdev))]) ∧
    (env.kmalloc_fails = false → 0 ≤ env.dma_init_rc → env.chrdev_init_rc < 0 →
      releases (xilinx_dma_bridge_probe env cfg pdev drv).trace =
        [Event.axidma_dma_exit (some (configuredDevice cfg pdev)),
         Event.kfree (some (configuredDevice cfg pdev))]) := by
  obtain ⟨kf, ra, rb⟩ := env
  refine ⟨?_, ?_, ?_⟩
  · intro hk; subst hk
    simp [xilinx_dma_bridge_probe, releases]
  · intro hk hA; subst hk
    simp [xilinx_dma_bridge_probe, hA, releases, List.filter, isRelease,
      freshDevice]
  · intro hk hA hB; subst hk
    simp [xilinx_dma_bridge_probe, not_lt.mpr hA, hB, releases, List.filter,
      isRelease, configuredDevice]

/-- Witness for C1: concrete probe with the DMA subsystem failing (rc -5);
the only release issued is the kfree of the fresh handle. -/
theorem probe_rollback_exact_witness :
    (xilinx_dma_bridge_probe ⟨false, -5, 0⟩ defaultConfig 3 none).rc ≠ 0 ∧
    releases (xilinx_dma_bridge_probe ⟨false, -5, 0⟩ defaultConfig 3 none).trace =
      [Event.kfree (some (freshDevice 3))] :=
  ⟨by decide,
   (probe_rollback_exact ⟨false, -5, 0⟩ defaultConfig 3 none (by decide)).2.1
     rfl (by decide)⟩

/-- C6: if handle allocation fails, probe returns -ENOMEM and performs no
further external call at all: no subsystem acquire, no release, no free. -/
theorem probe_alloc_failure (env : Env) (cfg : Config) (pdev : Nat)
    (drv : Option AxidmaDevice) (h : env.kmalloc_fails = true) :
    (xilinx_dma_bridge_probe env cfg pdev drv).rc = -ENOMEM ∧
    (xilinx_dma_bridge_probe env cfg pdev drv).trace = [] := by
  simp [xilinx_dma_bridge_probe, h]

/-- Witness for C6: concrete probe with kmalloc failing. -/
theorem probe_alloc_failure_witness :
    (xilinx_dma_bridge_probe ⟨true, 0, 0⟩ defaultConfig 0 none).rc = -ENOMEM ∧
    (xilinx_dma_bridge_probe ⟨true, 0, 0⟩ defaultConfig 0 none).trace = [] :=
  probe_alloc_failure ⟨true, 0, 0⟩ defaultConfig 0 none rfl

/-- C7: teardown never fails outward: remove always performs all three
release steps to completion and returns 0, whatever the drvdata slot
holds; no error is propagated. -/
theorem remove_never_fails (drv : Option AxidmaDevice) :
    (xilinx_dma_bridge_remove drv).rc = 0 ∧
    (xilinx_dma_bridge_remove drv).trace =
      [Event.axidma_chrdev_exit drv, Event.axidma_dma_exit drv,
       Event.kfree drv] :=
  ⟨rfl, rfl⟩

/-- C10: probe returns exactly one of 0, -ENOMEM and -ENOSYS: -ENOMEM
exactly on allocation failure, and the same -ENOSYS on either subsystem
failure, so the two subsystem causes are indistinguishable by return
value alone. -/
theorem probe_return_values (env : Env) (cfg : Config) (pdev : Nat)
    (drv : Option AxidmaDevice) :
    ((xilinx_dma_bridge_probe env cfg pdev drv).rc = 0 ∨
     (xilinx_dma_bridge_probe env cfg pdev drv).rc = -ENOMEM ∨
     (xilinx_dma_bridge_probe env cfg pdev drv).rc = -ENOSYS) ∧
    (env.kmalloc_fails = true →
      (xilinx_dma_bridge_probe env cfg pdev drv).rc = -ENOMEM) ∧
    (env.kmalloc_fails = false → env.dma_init_rc < 0 →
      (xilinx_dma_bridge_probe env cfg pdev drv).rc = -ENOSYS) ∧
    (env.kmalloc_fails = false → 0 ≤ env.dma_init_rc →
      env.chrdev_init_rc < 0 →
      (xilinx_dma_bridge_probe env cfg pdev drv).rc = -ENOSYS) ∧
    (env.kmalloc_fails = false → 0 ≤ env.dma_init_rc →
      0 ≤ env.chrdev_init_rc →
      (xilinx_dma_bridge_probe env cfg pdev drv).rc = 0) := by
  obtain ⟨kf, ra, rb⟩ := env
  refine ⟨?_, ?_, ?_, ?_, ?_⟩
  · cases kf
    · by_cases hA : ra < 0
      · exact Or.inr (Or.inr (by simp [xilinx_dma_bridge_probe, hA]))
      · by_cases hB : rb < 0
        · exact Or.inr (Or.inr (by simp [xilinx_dma_bridge_probe, hA, hB]))
        · exact Or.inl (by simp [xilinx_dma_bridge_probe, hA, hB])
    · exact Or.inr (Or.inl (by simp [xilinx_dma_bridge_probe]))
  · intro hk; subst hk; simp [xilinx_dma_bridge_probe]
  · intro hk hA; subst hk; simp [xilinx_dma_bridge_probe, hA]
  · intro hk hA hB; subst hk
    simp [xilinx_dma_bridge_probe, not_lt.mpr hA, hB]
  · intro hk hA hB; subst hk
    simp [xilinx_dma_bridge_probe, not_lt.mpr hA, not_lt.mpr hB]

/-- Witness for C10: concrete character-device-subsystem failure returns
-ENOSYS. -/
theorem probe_return_values_witness :
    (xilinx_dma_bridge_probe ⟨false, 0, -7⟩ defaultConfig 0 none).rc =
      -ENOSYS :=
  (probe_return_values ⟨false, 0, -7⟩ defaultConfig 0 none).2.2.2.1
    rfl (by decide) (by decide)

/-- C2: on a fully successful probe followed by remove, the acquires run
DMA subsystem then character-device subsystem, and the releases run in
exactly the reverse order: character-device exit, then DMA exit, with the
handle kfree only after both. -/
theorem probe_remove_reverse_order (env : Env) (cfg : Config) (pdev : Nat)
    (drv : Option AxidmaDevice)
    (h : (xilinx_dma_bridge_probe env cfg pdev drv).rc = 0) :
    acquires (xilinx_dma_bridge_probe env cfg pdev drv).trace =
      [Event.axidma_dma_init pdev env.dma_init_rc,
       Event.axidma_chrdev_init env.chrdev_init_rc] ∧
    (xilinx_dma_bridge_probe env cfg pdev drv).drvdata =
      some (configuredDevice cfg pdev) ∧
    (xilinx_dma_bridge_remove
        (xilinx_dma_bridge_probe env cfg pdev drv).drvdata).trace =
      [Event.axidma_chrdev_exit (some (configuredDevice cfg pdev)),
       Event.axidma_dma_exit (some (configuredDevice cfg pdev)),
       Event.kfree (some (configuredDevice cfg pdev))] := by
  obtain ⟨kf, ra, rb⟩ := env
  cases kf
  · by_cases hA : ra < 0
    · simp [xilinx_dma_bridge_probe, hA, ENOSYS] at h
    · by_cases hB : rb < 0
      · simp [xilinx_dma_bridge_probe, hA, hB, ENOSYS] at h
      · refine ⟨?_, ?_, ?_⟩ <;>
          simp [xilinx_dma_bridge_probe, hA, hB, acquires, List.filter,
            isAcquire, configuredDevice, xilinx_dma_bridge_remove]
  · simp [xilinx_dma_bridge_probe, ENOMEM] at h

/-- Witness for C2: concrete successful probe then remove; the release
trace is character-device exit, DMA exit, then kfree. -/
theorem probe_remove_reverse_order_witness :
    (xilinx_dma_bridge_remove
        (xilinx_dma_bridge_probe ⟨false, 0, 0⟩ defaultConfig 7
          none).drvdata).trace =
      [Event.axidma_chrdev_exit (some (configuredDevice defaultConfig 7)),
       Event.axidma_dma_exit (some (configuredDevice defaultConfig 7)),
       Event.kfree (some (configuredDevice defaultConfig 7))] :=
  (probe_remove_reverse_order ⟨false, 0, 0⟩ defaultConfig 7 none
    (by decide)).2.2

/-- C3: dev_set_drvdata is called exactly once, as the last action of a
fully successful probe, and the drvdata slot is written if and only if all
acquisition steps succeed; on every failure path the slot is left
untouched and dev_set_drvdata is never called. -/
theorem probe_drvdata_iff_success (env : Env) (cfg : Config) (pdev : Nat)
    (drv : Option AxidmaDevice) :
    ((xilinx_dma_bridge_probe env cfg pdev drv).rc = 0 →
      countSetDrvdata (xilinx_dma_bridge_probe env cfg pdev drv).trace = 1 ∧
      (xilinx_dma_bridge_probe env cfg pdev drv).trace.getLast? =
        some (Event.dev_set_drvdata (configuredDevice cfg pdev)) ∧
      (xilinx_dma_bridge_probe env cfg pdev drv).drvdata =
        some (configuredDevice cfg pdev)) ∧
    ((xilinx_dma_bridge_probe env cfg pdev drv).rc ≠ 0 →
      countSetDrvdata (xilinx_dma_bridge_probe env cfg pdev drv).trace = 0 ∧
      (xilinx_dma_bridge_probe env cfg pdev drv).drvdata = drv) := by
  obtain ⟨kf, ra, rb⟩ := env
  cases kf
  · by_cases hA : ra < 0
    · constructor
      · intro h; simp [xilinx_dma_bridge_probe, hA, ENOSYS] at h
      · intro h
        simp [xilinx_dma_bridge_probe, hA, countSetDrvdata,
          List.countP_cons, List.countP_nil]
    · by_cases hB : rb < 0
      · constructor
        · intro h; simp [xilinx_dma_bridge_probe, hA, hB, ENOSYS] at h
        · intro h
          simp [xilinx_dma_bridge_probe, hA, hB, countSetDrvdata,
            List.countP_cons, List.countP_nil]
      · constructor
        · intro h
          refine ⟨?_, ?_, ?_⟩ <;>
            simp [xilinx_dma_bridge_probe, hA, hB, countSetDrvdata,
              List.countP_cons, List.countP_nil, configuredDevice]
        · intro h; simp [xilinx_dma_bridge_probe, hA, hB] at h
  · constructor
    · intro h; simp [xilinx_dma_bridge_probe, ENOMEM] at h
    · intro h; simp [xilinx_dma_bridge_probe, countSetDrvdata]

/-- Witness for C3: dev_set_drvdata runs exactly once on a concrete
success and never on a concrete allocation failure. -/
theorem probe_drvdata_iff_success_witness :
    countSetDrvdata
        (xilinx_dma_bridge_probe ⟨false, 0, 0⟩ defaultConfig 1 none).trace =
      1 ∧
    countSetDrvdata
        (xilinx_dma_bridge_probe ⟨true, 0, 0⟩ defaultConfig 1 none).trace =
      0 :=
  ⟨((probe_drvdata_iff_success ⟨false, 0, 0⟩ defaultConfig 1 none).1
      (by decide)).1,
   ((probe_drvdata_iff_success ⟨true, 0, 0⟩ defaultConfig 1 none).2
      (by decide)).1⟩

/-- C8: on a fully successful probe, the published handle carries exactly
the configuration inputs, stored by a single assignConfig step strictly
between the DMA-subsystem success and the character-device attempt, and
the remove operation never modifies the handle afterwards. -/
theorem probe_config_immutable (env : Env) (cfg : Config) (pdev : Nat)
    (drv : Option AxidmaDevice)
    (h : (xilinx_dma_bridge_probe env cfg pdev drv).rc = 0) :
    (xilinx_dma_bridge_probe env cfg pdev drv).drvdata =
      some (configuredDevice cfg pdev) ∧
    (configuredDevice cfg pdev).chrdev_name =
      some cfg.CHARACTER_DEVICE_NAME ∧
    (configuredDevice cfg pdev).minor_num = some cfg.MINOR_NUMBER ∧
    (configuredDevice cfg pdev).num_devices = some cfg.NUM_DEVICES ∧
    0 ≤ env.dma_init_rc ∧
    (xilinx_dma_bridge_probe env cfg pdev drv).trace =
      [Event.axidma_dma_init pdev env.dma_init_rc,
       Event.assignConfig cfg.CHARACTER_DEVICE_NAME cfg.MINOR_NUMBER
         cfg.NUM_DEVICES,
       Event.axidma_chrdev_init env.chrdev_init_rc,
       Event.dev_set_drvdata (configuredDevice cfg pdev)] ∧
    countAssignConfig (xilinx_dma_bridge_probe env cfg pdev drv).trace = 1 ∧
    (xilinx_dma_bridge_remove
        (xilinx_dma_bridge_probe env cfg pdev drv).drvdata).drvdata =
      some (configuredDevice cfg pdev) := by
  obtain ⟨kf, ra, rb⟩ := env
  cases kf
  · by_cases hA : ra < 0
    · simp [xilinx_dma_bridge_probe, hA, ENOSYS] at h
    · by_cases hB : rb < 0
      · simp [xilinx_dma_bridge_probe, hA, hB, ENOSYS] at h
      · refine ⟨?_, rfl, rfl, rfl, not_lt.mp hA, ?_, ?_, ?_⟩ <;>
          simp [xilinx_dma_bridge_probe, hA, hB, configuredDevice,
            countAssignConfig, List.countP_cons, List.countP_nil,
            xilinx_dma_bridge_remove]
  · simp [xilinx_dma_bridge_probe, ENOMEM] at h

/-- Witness for C8: concrete successful probe publishes the handle with
the default configuration values. -/
theorem probe_config_immutable_witness :
    (xilinx_dma_bridge_probe ⟨false, 0, 0⟩ defaultConfig 2 none).drvdata =
      some (configuredDevice defaultConfig 2) ∧
    (configuredDevice defaultConfig 2).chrdev_name =
      some "xilinx_dma_bridge" :=
  ⟨(probe_config_immutable ⟨false, 0, 0⟩ defaultConfig 2 none
      (by decide)).1,
   (probe_config_immutable ⟨false, 0, 0⟩ defaultConfig 2 none
      (by decide)).2.1⟩

/-- C4 counterexample: with the DMA subsystem failing with error value -5,
probe returns -38 (that is, -ENOSYS), not the -5 cause of the failing
subsystem: the error value of the failing step is not propagated. -/
theorem probe_error_cause_cex :
    (xilinx_dma_bridge_probe ⟨false, -5, 0⟩ defaultConfig 0 none).rc =
      -38 ∧
    ¬ (xilinx_dma_bridge_probe ⟨false, -5, 0⟩ defaultConfig 0 none).rc =
      -5 := by
  decide

/-- C4 amended: when either subsystem acquisition step fails, probe
returns the fixed error -ENOSYS irrespective of which subsystem failed
and of the error value that subsystem reported; the cause is therefore
not distinguishable from the return code. -/
theorem probe_error_fixed (env : Env) (cfg : Config) (pdev : Nat)
    (drv : Option AxidmaDevice) (hk : env.kmalloc_fails = false)
    (hfail : env.dma_init_rc < 0 ∨ env.chrdev_init_rc < 0) :
    (xilinx_dma_bridge_probe env cfg pdev drv).rc = -ENOSYS := by
  obtain ⟨kf, ra, rb⟩ := env
  cases kf
  · by_cases hA : ra < 0
    · simp [xilinx_dma_bridge_probe, hA]
    · rcases hfail with h1 | h2
      · exact absurd h1 hA
      · simp [xilinx_dma_bridge_probe, hA, h2]
  · simp at hk

/-- Witness for the amended C4: a concrete character-device failure with
cause -9 still returns -ENOSYS. -/
theorem probe_error_fixed_witness :
    (xilinx_dma_bridge_probe ⟨false, 0, -9⟩ defaultConfig 0 none).rc =
      -ENOSYS :=
  probe_error_fixed ⟨false, 0, -9⟩ defaultConfig 0 none rfl
    (Or.inr (by decide))

/-- C5 counterexample: remove frees the handle but leaves the drvdata
slot holding that very handle; the association is not cleared by remove
itself. -/
theorem remove_stale_drvdata_cex :
    Event.kfree (some (configuredDevice defaultConfig 0)) ∈
      (xilinx_dma_bridge_remove
        (some (configuredDevice defaultConfig 0))).trace ∧
    (xilinx_dma_bridge_remove
        (some (configuredDevice defaultConfig 0))).drvdata =
      some (configuredDevice defaultConfig 0) := by
  constructor
  · simp [xilinx_dma_bridge_remove]
  · rfl

/-- C5 amended: after remove on an attached instance, both subsystem
releases run, character-device exit first, the handle is freed exactly
once and remove returns 0; but remove does not clear the drvdata slot,
which still holds the stale pointer to the freed handle. -/
theorem remove_releases_all_keeps_drvdata (d : AxidmaDevice) :
    (xilinx_dma_bridge_remove (some d)).rc = 0 ∧
    (xilinx_dma_bridge_remove (some d)).trace =
      [Event.axidma_chrdev_exit (some d), Event.axidma_dma_exit (some d),
       Event.kfree (some d)] ∧
    (xilinx_dma_bridge_remove (some d)).drvdata = some d :=
  ⟨rfl, rfl, rfl⟩

/-- C9 counterexample: remove with an empty drvdata slot is not rejected
and does not no-op: its trace is nonempty and invokes both subsystem
release operations and kfree, each with the NULL handle. -/
theorem remove_null_cex :
    (xilinx_dma_bridge_remove none).trace =
      [Event.axidma_chrdev_exit none, Event.axidma_dma_exit none,
       Event.kfree none] ∧
    ¬ (xilinx_dma_bridge_remove none).trace = [] := by
  decide

/-- C9 amended: remove on an instance with no associated handle is
neither rejected nor a no-op: it still runs the full release sequence,
passing the NULL handle to axidma_chrdev_exit, axidma_dma_exit and
kfree, and returns 0. -/
theorem remove_unguarded_null :
    (xilinx_dma_bridge_remove none).rc = 0 ∧
    (xilinx_dma_bridge_remove none).trace =
      [Event.axidma_chrdev_exit none, Event.axidma_dma_exit none,
       Event.kfree none] :=
  ⟨rfl, rfl⟩

end XilinxDmaBridge
